import Mathlib

/-!
Verification of the ENTU → MUIS field-translation pipeline.

Shallow embedding of the repository's core translation code:
  * `scripts/parsers/number_parser.py`    → `parse_entu_code`
  * `scripts/parsers/dimension_parser.py` → `parse_dimensions`
  * `scripts/parsers/date_parser.py`      → `convert_date`
  * `scripts/parsers/person_mapper.py`    → `map_person`
  * `scripts/parsers/vocab_mapper.py`     → `map_material` / `map_technique` / `map_color`
  * `scripts/convert_row.py`              → `convert_row`
  * `scripts/muis_writer.py`              → `MUIS_COLUMN_NAMES`, `orchestrator_to_muis_row`
  * `scripts/models.py` (`MuisMuseaal`)   → `Muis`, `mkMuisMuseaal`

Conventions of the embedding:
  * Python strings are Lean `String`s; the possibly-`None` arguments are
    `Option String` (`none` models Python `None`; other non-`str` Python values
    behave identically to `None` at every guard the claims exercise).
  * Python dicts are association lists `List (String × Value)` in insertion
    order (CPython dicts preserve insertion order; none of the embedded code
    writes the same key twice).
  * Python numbers parsed from decimal literals are modelled as the exact
    decimal `PyNum` (exact on every value the claims evaluate).
  * A Python function that can raise is embedded as `Except`/`Option`;
    a total Lean function models a Python function that never raises on the
    modelled input type.
-/

/-! ### Python string primitives -/

/-- ASCII whitespace stripped by Python `str.strip()` (the Unicode-only
whitespace code points never occur in the inputs the claims exercise). -/
def isPyWs (c : Char) : Bool :=
  c = ' ' || c = '\t' || c = '\n' || c = '\r' || c = '\x0b' || c = '\x0c'

/-- Python `str.strip()`. -/
def pyStrip (s : String) : String :=
  String.mk (((s.data.dropWhile isPyWs).reverse.dropWhile isPyWs).reverse)

/-- Numeric value of a digit run, as `int()` computes it (leading zeros
stripped by positional evaluation). -/
def digitsToNat (l : List Char) : Nat :=
  l.foldl (fun a c => 10 * a + (c.toNat - '0'.toNat)) 0

/-- Python `str.split(sep)` for a one-character separator, on character
lists: splits at every occurrence and keeps empty pieces. -/
def splitOnChar (sep : Char) : List Char → List (List Char)
  | [] => [[]]
  | c :: rest =>
    let r := splitOnChar sep rest
    if c = sep then [] :: r
    else
      match r with
      | h :: t => (c :: h) :: t
      | [] => [[c]]

/-- The nonnegative decimal number a matched numeric lexeme denotes:
`mant / 10 ^ frac`. Python stores it as a `float`; every value the claims
compare is exactly representable, so the decimal itself is the faithful
model. -/
structure PyNum where
  mant : Nat
  frac : Nat
deriving DecidableEq, Repr

/-- The rational value of a `PyNum`. -/
def PyNum.toRat (x : PyNum) : Rat := (x.mant : Rat) / ((10 : Rat) ^ x.frac)

/-- Python float truthiness: `0.0` is falsy, everything else truthy. -/
def PyNum.truthy (x : PyNum) : Bool := x.mant != 0

/-! ### Object-code parser (`scripts/parsers/number_parser.py`) -/

/-- The regular expression `^(\d{6})/(\d{3})$` from `parse_entu_code`,
applied with `re.match` to the whole (already stripped) string. Digits are
ASCII, the scope every claim exercises. -/
def matchesEntuPattern (s : String) : Bool :=
  let l := s.data
  decide (l.length = 10) && (l.take 6).all Char.isDigit
    && ((l.drop 6).head? == some '/') && (l.drop 7).all Char.isDigit

/-- The dictionary `parse_entu_code` returns: nine fields, of which the last
five are always `None` for this source. -/
structure EntuParsed where
  acr : String
  trt : String
  trs : Nat
  trj : Nat
  trl : Option String
  kt : Option String
  ks : Option Nat
  kj : Option Nat
  kl : Option String
deriving DecidableEq, Repr

/-- `parse_entu_code` from `scripts/parsers/number_parser.py`.
`ValueError` is modelled as `Except.error` carrying the message string the
source builds. `none` models a Python `None` argument. -/
def parse_entu_code (code : Option String) : Except String EntuParsed :=
  match code with
  | none => .error "Code must be a non-empty string, got: None"
  | some c0 =>
    if c0 = "" then
      .error ("Code must be a non-empty string, got: " ++ c0)
    else
      let c := pyStrip c0
      if matchesEntuPattern c then
        .ok { acr := "VBM", trt := "_",
              trs := digitsToNat (c.data.take 6),
              trj := digitsToNat (c.data.drop 7),
              trl := none, kt := none, ks := none, kj := none, kl := none }
      else
        .error ("Invalid ENTU code format: " ++ c
          ++ ". Expected format: NNNNNN/NNN (e.g., 020027/117)")

instance {ε α : Type} [DecidableEq ε] [DecidableEq α] : DecidableEq (Except ε α)
  | .error e, .error f =>
      if h : e = f then .isTrue (by rw [h]) else .isFalse (by intro hh; cases hh; exact h rfl)
  | .error _, .ok _ => .isFalse fun hh => Except.noConfusion hh
  | .ok _, .error _ => .isFalse fun hh => Except.noConfusion hh
  | .ok a, .ok b =>
      if h : a = b then .isTrue (by rw [h]) else .isFalse (by intro hh; cases hh; exact h rfl)

example : parse_entu_code (some "020027/117") =
    .ok ⟨"VBM", "_", 20027, 117, none, none, none, none, none⟩ := by decide

example : parse_entu_code (some "006562/001") =
    .ok ⟨"VBM", "_", 6562, 1, none, none, none, none, none⟩ := by decide

example : (parse_entu_code (some "ABC/XYZ")).isOk = false := by decide

example : (parse_entu_code (some "")).isOk = false := by decide

/-! ### Dimension parser (`scripts/parsers/dimension_parser.py`) -/

/-- One measurement dictionary as emitted by `parse_dimensions`. -/
structure Measurement where
  parameeter : String
  yhik : String
  vaartus : PyNum
deriving DecidableEq, Repr

/-- Greedy match of the regex fragment `\d+(?:\.\d+)?` at the head of `l`:
returns the matched lexeme and the rest. Nothing in either source pattern
follows this fragment except a literal that no digit can satisfy, so the
greedy, non-backtracking reading is exact. -/
def matchNumAt (l : List Char) : Option (List Char × List Char) :=
  let d1 := l.takeWhile Char.isDigit
  let r1 := l.dropWhile Char.isDigit
  if d1.isEmpty then none
  else
    match r1 with
    | '.' :: r2 =>
      let d2 := r2.takeWhile Char.isDigit
      if d2.isEmpty then some (d1, r1)
      else some (d1 ++ '.' :: d2, r2.dropWhile Char.isDigit)
    | _ => some (d1, r1)

/-- Match of `[ød][:,]?(\d+(?:\.\d+)?)` anchored at the head of `l`;
returns group 1. When the optional separator is present but not followed by
a digit the regex backtracks to the empty separator and then fails on `\d+`,
which this direct reading reproduces. -/
def diaMatchAt : List Char → Option (List Char)
  | [] => none
  | c :: rest =>
    if c = 'ø' || c = 'd' then
      match rest with
      | [] => none
      | c2 :: rest2 =>
        if c2 = ':' || c2 = ',' then (matchNumAt rest2).map (·.1)
        else (matchNumAt rest).map (·.1)
    else none

/-- `re.search` for the diameter pattern: leftmost successful start wins. -/
def searchDia : List Char → Option (List Char)
  | [] => none
  | l@(_ :: rest) =>
    match diaMatchAt l with
    | some g => some g
    | none => searchDia rest

/-- Match of `(\d+(?:\.\d+)?)x(\d+(?:\.\d+)?)(?:x(\d+(?:\.\d+)?))?` anchored
at the head of `l`; returns groups 1, 2 and the optional group 3. -/
def hwMatchAt (l : List Char) : Option (List Char × List Char × Option (List Char)) :=
  match matchNumAt l with
  | none => none
  | some (g1, r1) =>
    match r1 with
    | 'x' :: r2 =>
      match matchNumAt r2 with
      | none => none
      | some (g2, r3) =>
        match r3 with
        | 'x' :: r4 =>
          match matchNumAt r4 with
          | some (g3, _) => some (g1, g2, some g3)
          | none => some (g1, g2, none)
        | _ => some (g1, g2, none)
    | _ => none

/-- `re.search` for the height×width[×depth] pattern. -/
def searchHW : List Char → Option (List Char × List Char × Option (List Char))
  | [] => none
  | l@(_ :: rest) =>
    match hwMatchAt l with
    | some g => some g
    | none => searchHW rest

/-- Python `float()` of a matched numeric lexeme (digits, optionally a dot
and more digits), as an exact decimal. -/
def numVal (l : List Char) : PyNum :=
  let ip := l.takeWhile Char.isDigit
  match l.dropWhile Char.isDigit with
  | '.' :: fp => ⟨digitsToNat ip * 10 ^ fp.length + digitsToNat fp, fp.length⟩
  | _ => ⟨digitsToNat ip, 0⟩

/-- The per-clause body of the `for part in parts` loop: a diameter match
appends one measurement, an H×W[×D] match appends two or three, in that
order (a clause satisfying both regexes emits both groups). -/
def parsePart (part : String) : List Measurement :=
  let l := part.data
  (match searchDia l with
   | some g => [⟨"läbimõõt", "mm", numVal g⟩]
   | none => [])
  ++
  (match searchHW l with
   | some (g1, g2, og3) =>
     [⟨"kõrgus", "mm", numVal g1⟩, ⟨"laius", "mm", numVal g2⟩]
       ++ (match og3 with
           | some g3 => [⟨"sügavus", "mm", numVal g3⟩]
           | none => [])
   | none => [])

/-- `parse_dimensions` from `scripts/parsers/dimension_parser.py`:
semicolon-separated clauses, each stripped and skipped when blank, results
capped at 4. Total — the source never raises on an optional-string input. -/
def parse_dimensions (dimStr : Option String) : List Measurement :=
  match dimStr with
  | none => []
  | some s0 =>
    if s0 = "" then []
    else
      let s := pyStrip s0
      if s = "" then []
      else
        ((splitOnChar ';' s.data).foldl
          (fun acc part =>
            let p := pyStrip (String.mk part)
            if p = "" then acc else acc ++ parsePart p)
          []).take 4

example : parse_dimensions (some "ø50") = [⟨"läbimõõt", "mm", ⟨50, 0⟩⟩] := by decide

example : parse_dimensions (some "62x70") =
    [⟨"kõrgus", "mm", ⟨62, 0⟩⟩, ⟨"laius", "mm", ⟨70, 0⟩⟩] := by decide

example : parse_dimensions (some "ø50;62x70") =
    [⟨"läbimõõt", "mm", ⟨50, 0⟩⟩, ⟨"kõrgus", "mm", ⟨62, 0⟩⟩, ⟨"laius", "mm", ⟨70, 0⟩⟩] := by
  decide

example : parse_dimensions (some "d:12.5") = [⟨"läbimõõt", "mm", ⟨125, 1⟩⟩] := by decide

example : parse_dimensions (some "unparseable text") = [] := by decide

example : parse_dimensions (some "1x2x3;4x5") =
    [⟨"kõrgus", "mm", ⟨1, 0⟩⟩, ⟨"laius", "mm", ⟨2, 0⟩⟩, ⟨"sügavus", "mm", ⟨3, 0⟩⟩,
     ⟨"kõrgus", "mm", ⟨4, 0⟩⟩] := by decide

/-! ### Date parser (`scripts/parsers/date_parser.py`) -/

/-- Gregorian leap-year rule, as `datetime.date` applies it. -/
def isLeap (y : Nat) : Bool := (y % 4 = 0 && y % 100 ≠ 0) || y % 400 = 0

/-- Days in a month, as `datetime.date` validates them. -/
def daysInMonth (y m : Nat) : Nat :=
  if m = 2 then (if isLeap y then 29 else 28)
  else if m = 4 || m = 6 || m = 9 || m = 11 then 30
  else 31

/-- `datetime.fromisoformat` restricted to the `YYYY-MM-DD` calendar-date
core this pipeline feeds it (the extended ISO forms newer Python also
accepts are outside every claim's scope): ten characters, digits in the
date positions, dashes at positions 4 and 7, and a valid calendar date
with year ≥ 1. Returns (year, month, day) or `none` for `ValueError`. -/
def isoParse (s : String) : Option (Nat × Nat × Nat) :=
  match s.data with
  | [y1, y2, y3, y4, s1, m1, m2, s2, d1, d2] =>
    if ([y1, y2, y3, y4, m1, m2, d1, d2].all Char.isDigit) && s1 = '-' && s2 = '-' then
      let y := digitsToNat [y1, y2, y3, y4]
      let m := digitsToNat [m1, m2]
      let d := digitsToNat [d1, d2]
      if 1 ≤ y && 1 ≤ m && m ≤ 12 && 1 ≤ d && d ≤ daysInMonth y m then
        some (y, m, d)
      else none
    else none
  | _ => none

/-- Zero-padding to two digits, as `strftime` `%d` and `%m` produce. -/
def pad2 (n : Nat) : String :=
  if n < 10 then "0" ++ toString n else toString n

/-- `convert_date` from `scripts/parsers/date_parser.py`: ISO `YYYY-MM-DD`
to `DD.MM.YYYY`; `None`, empty or malformed input degrades to `none`
(the source catches the `ValueError` and never raises). `%Y` is unpadded,
as glibc prints it. -/
def convert_date (dateStr : Option String) : Option String :=
  match dateStr with
  | none => none
  | some s =>
    if s = "" then none
    else
      match isoParse s with
      | some (y, m, d) => some (pad2 d ++ "." ++ pad2 m ++ "." ++ toString y)
      | none => none

example : convert_date (some "2002-12-22") = some "22.12.2002" := by decide

example : convert_date (some "1956-05-28") = some "28.05.1956" := by decide

example : convert_date (some "invalid") = none := by decide

example : convert_date none = none := by decide

/-! ### Person mapper (`scripts/parsers/person_mapper.py`) -/

/-- Python `str.isdigit()` (ASCII scope): nonempty and all digits. -/
def pyIsDigit (s : String) : Bool :=
  !s.data.isEmpty && s.data.all Char.isDigit

/-- Python `str.replace(" ", "")`. -/
def removeSpaces (s : String) : String :=
  String.mk (s.data.filter (· ≠ ' '))

/-- `map_person` from `scripts/parsers/person_mapper.py` (the phase-1 stub):
`None`/empty → `none`; a comma-holding, not purely numeric string → itself
(stripped); a purely numeric string → the bracketed placeholder; anything
else → itself (stripped). Never fails. -/
def map_person (personIdOrName : Option String) : Option String :=
  match personIdOrName with
  | none => none
  | some s0 =>
    if s0 = "" then none
    else
      let s := pyStrip s0
      if s.data.contains ',' && !pyIsDigit (removeSpaces s) then some s
      else if pyIsDigit s then some ("[Person ID: " ++ s ++ "]")
      else some s

example : map_person (some "139862") = some "[Person ID: 139862]" := by decide

example : map_person (some "Tamm, Jaan") = some "Tamm, Jaan" := by decide

example : map_person (some "") = none := by decide

/-! ### Vocabulary mapper (`scripts/parsers/vocab_mapper.py`) -/

/-- `map_material` from `scripts/parsers/vocab_mapper.py`: slash-delimited
path → last non-empty segment; bare term → itself; `None`/empty → `none`. -/
def map_material (materialPath : Option String) : Option String :=
  match materialPath with
  | none => none
  | some s0 =>
    if s0 = "" then none
    else
      let s := pyStrip s0
      if s.data.contains '/' then
        match ((splitOnChar '/' s.data).filter (· ≠ [])).getLast? with
        | some t => some (String.mk t)
        | none => none
      else
        if s = "" then none else some s

/-- `map_technique`: delegates to `map_material`. -/
def map_technique (techniquePath : Option String) : Option String :=
  map_material techniquePath

/-- `map_color`: delegates to `map_material`. -/
def map_color (colorPath : Option String) : Option String :=
  map_material colorPath

example : map_material (some "/materjalid/metall") = some "metall" := by decide

example : map_material (some "metall") = some "metall" := by decide

example : map_material none = none := by decide

/-! ### Row orchestrator (`scripts/convert_row.py`) -/

/-- A Python value stored in the orchestrator's result dict or in a MUIS
row dict. -/
inductive Value where
  | vNone : Value
  | vStr : String → Value
  | vNat : Nat → Value
  | vNum : PyNum → Value
  | vMeasurements : List Measurement → Value
deriving DecidableEq, Repr

/-- `None`-or-string, as stored in a dict. -/
def optV : Option String → Value
  | none => Value.vNone
  | some s => Value.vStr s

/-- The source record shape consumed by the pipeline (`EntuEksponaat` /
spec §6): every field the orchestrator reads, plus the descriptive fields
the source record carries alongside them. `none` models an absent key. -/
structure EntuRow where
  code : Option String := none
  dimensions : Option String := none
  date : Option String := none
  donator : Option String := none
  autor : Option String := none
  materials : Option String := none
  techniques : Option String := none
  colors : Option String := none
  name : Option String := none
  description : Option String := none
  asukoht : Option String := none
  vastuv6tuakt : Option String := none
  year : Option String := none
  legend : Option String := none
  public_legend : Option String := none
deriving DecidableEq, Repr

/-- The nine hierarchy values of the orchestrator result. Both the
`result.update(number_parsed)` path and the two all-`None` fallback paths
write the same nine keys in the same order, so `convert_row` below keeps a
fixed key spine and only the values vary. -/
structure HierValues where
  acr : Value
  trt : Value
  trs : Value
  trj : Value
  trl : Value
  kt : Value
  ks : Value
  kj : Value
  kl : Value

/-- The all-`None` fallback written on a missing/empty code and on a
parse failure. -/
def hierAllNone : HierValues :=
  ⟨.vNone, .vNone, .vNone, .vNone, .vNone, .vNone, .vNone, .vNone, .vNone⟩

/-- The dict `parse_entu_code` returned, as dict values. -/
def hierFromParsed (f : EntuParsed) : HierValues :=
  ⟨.vStr f.acr, .vStr f.trt, .vNat f.trs, .vNat f.trj,
   optV f.trl, optV f.kt,
   (match f.ks with | none => .vNone | some n => .vNat n),
   (match f.kj with | none => .vNone | some n => .vNat n),
   optV f.kl⟩

/-- PHASE 1 of `convert_row`: the try/except around `parse_entu_code` —
the parsed dict on success, the all-`None` fallback on a missing or empty
code and on a caught `ValueError`. -/
def hierOf (code : String) : HierValues :=
  if code = "" then hierAllNone
  else
    match parse_entu_code (some code) with
    | .ok f => hierFromParsed f
    | .error _ => hierAllNone

/-- `convert_row` from `scripts/convert_row.py`: the orchestrator. The
result dict's 20 keys in source insertion order; the hierarchy values come
from the code parser or the caught-`ValueError` fallback. Total — the only
failing sub-parser is caught locally. -/
def convert_row (entuRow : EntuRow) : List (String × Value) :=
  let hier := hierOf (entuRow.code.getD "")
  [("acr", hier.acr), ("trt", hier.trt), ("trs", hier.trs), ("trj", hier.trj),
   ("trl", hier.trl), ("kt", hier.kt), ("ks", hier.ks), ("kj", hier.kj), ("kl", hier.kl),
   ("measurements", Value.vMeasurements (parse_dimensions (some (entuRow.dimensions.getD "")))),
   ("date", optV (convert_date (some (entuRow.date.getD "")))),
   ("donator", optV (map_person (some (entuRow.donator.getD "")))),
   ("autor", optV (map_person (some (entuRow.autor.getD "")))),
   ("material", optV (map_material (some (entuRow.materials.getD "")))),
   ("technique", optV (map_technique (some (entuRow.techniques.getD "")))),
   ("color", optV (map_color (some (entuRow.colors.getD "")))),
   ("name", Value.vStr (entuRow.name.getD "")),
   ("description", Value.vStr (entuRow.description.getD "")),
   ("donator_direct", Value.vStr (entuRow.donator.getD "")),
   ("autor_direct", Value.vStr (entuRow.autor.getD ""))]

/-- The orchestrator result's key set, in insertion order. -/
def intermediateKeys : List String :=
  ["acr", "trt", "trs", "trj", "trl", "kt", "ks", "kj", "kl",
   "measurements", "date", "donator", "autor", "material", "technique", "color",
   "name", "description", "donator_direct", "autor_direct"]

example : (convert_row {}).map Prod.fst = intermediateKeys := by decide

example : (convert_row { code := some "020027/117" }).lookup "trs" = some (Value.vNat 20027) := by
  decide

example : (convert_row { code := some "INVALID" }).lookup "trs" = some Value.vNone := by decide

/-! ### Column mapper (`scripts/muis_writer.py`) -/

/-- `MUIS_COLUMN_NAMES` from `scripts/muis_writer.py`: the fixed 88-column
output header, in order. -/
def MUIS_COLUMN_NAMES : List String :=
  ["museaali_ID", "Importimise staatus", "Kommentaar",
   "Acr", "Trt", "Trs", "Trj", "Trl", "Kt", "Ks", "Kj", "Kl",
   "Nimetus", "Püsiasukoht", "Tulmelegend", "Originaal ?",
   "Vastuvõtu nr", "Esmane üldinfo", "Koguse registreerimise aeg", "Üleandja",
   "Muuseumile omandamise viis",
   "Parameeter 1", "Ühik 1", "Väärtus 1",
   "Parameeter 2", "Ühik 2", "Väärtus 2",
   "Parameeter 3", "Ühik 3", "Väärtus 3",
   "Parameeter 4", "Ühik 4", "Väärtus 4",
   "Materjal 1", "Materjali 1 kommentaar", "Materjal 2", "Materjali 2 kommentaar",
   "Materjal 3", "Materjali 3 kommentaar", "Värvus",
   "Tehnika 1", "Tehnika 1 kommentaar", "Tehnika 2", "Tehnika 2 kommentaar",
   "Tehnika 3", "Tehnika 3 kommentaar",
   "Olemus 1", "Olemus 2",
   "Viite tyyp", "Viite väärtus",
   "Leiukontekst", "Leiu liik", "Pealkirja keel", "Ainese keel",
   "Seisund", "Kahjustused",
   "Sündmuse liik 1", "Toimumiskoha tapsustus kohanimi 1",
   "Toimumiskoha tapsustus selgitus 1", "Dateering algus 1", "On eKr 1",
   "Dateeringu lopp 1", "Riik 1", "Eesti admin yksus 1", "Osaleja 1",
   "Osaleja roll 1", "Kihelkond 1",
   "Sündmuse liik 2", "Toimumiskoha tapsustus kohanimi 2",
   "Toimumiskoha tapsustus selgitus 2", "Dateering algus 2", "On eKr 2",
   "Dateeringu lopp 2", "Riik 2", "Eesti admin yksus 2", "Osaleja 2",
   "Osaleja roll 2", "Kihelkond 2",
   "Avalik", "Avalikusta praegused andmed",
   "Teksti tyyp 1", "Tekst 1", "Teksti tyyp 2", "Tekst 2",
   "Nimetuse tyyp", "Alt nimetus",
   "Numbri tyyp", "Alt number"]

/-- Python `orchestrator_output.get(key)`: the stored value, or `None` when
the key is absent. -/
def dget (m : List (String × Value)) (k : String) : Value :=
  match m.lookup k with
  | some v => v
  | none => Value.vNone

/-- Python value truthiness for the `material if material else None` and
`technique if technique else None` writes. -/
def vTruthy : Value → Bool
  | .vNone => false
  | .vStr s => !s.isEmpty
  | .vNat n => n != 0
  | .vNum x => x.truthy
  | .vMeasurements ms => !ms.isEmpty

/-- `orchestrator_output.get("measurements", [])` followed by `len(...)` and
indexing. The key absent defaults to `[]`; a stored list is used as-is; a
stored empty string has `len 0` and is never indexed; any other stored
value makes CPython raise (`len()` of `None`/a number is a `TypeError`,
indexing a nonempty string yields a `str` whose `.get` is an
`AttributeError`), which `none` models — nothing in the source catches it. -/
def measurementsOf : Option Value → Option (List Measurement)
  | none => some []
  | some (Value.vMeasurements ms) => some ms
  | some (Value.vStr s) => if s = "" then some [] else none
  | some _ => none

/-- Measurement slot `i` (0-based), parameter column: `measurements[i]`
when `i < len(measurements)`, else `None`. -/
def msSlotP (ms : List Measurement) (i : Nat) : Value :=
  match ms.get? i with
  | some mm => Value.vStr mm.parameeter
  | none => Value.vNone

/-- Measurement slot `i`, unit column. -/
def msSlotY (ms : List Measurement) (i : Nat) : Value :=
  match ms.get? i with
  | some mm => Value.vStr mm.yhik
  | none => Value.vNone

/-- Measurement slot `i`, value column. -/
def msSlotV (ms : List Measurement) (i : Nat) : Value :=
  match ms.get? i with
  | some mm => Value.vNum mm.vaartus
  | none => Value.vNone

/-- `orchestrator_to_muis_row` from `scripts/muis_writer.py`: projects one
orchestrator dict onto the fixed 88-column MUIS row, in source key order.
`none` models the uncaught `TypeError`/`AttributeError` on a dict whose
`"measurements"` entry is not a (possibly empty) list. -/
def orchestrator_to_muis_row (m : List (String × Value)) : Option (List (String × Value)) :=
  match measurementsOf (m.lookup "measurements") with
  | none => none
  | some ms => some
    [("museaali_ID", Value.vNone), ("Importimise staatus", Value.vNone),
     ("Kommentaar", Value.vNone),
     ("Acr", dget m "acr"), ("Trt", dget m "trt"), ("Trs", dget m "trs"),
     ("Trj", dget m "trj"), ("Trl", dget m "trl"), ("Kt", dget m "kt"),
     ("Ks", dget m "ks"), ("Kj", dget m "kj"), ("Kl", dget m "kl"),
     ("Nimetus", dget m "name"), ("Püsiasukoht", Value.vNone),
     ("Tulmelegend", dget m "description"), ("Originaal ?", Value.vStr ""),
     ("Vastuvõtu nr", Value.vNone), ("Esmane üldinfo", dget m "description"),
     ("Koguse registreerimise aeg", Value.vNone), ("Üleandja", dget m "donator"),
     ("Muuseumile omandamise viis", Value.vNone),
     ("Parameeter 1", msSlotP ms 0), ("Ühik 1", msSlotY ms 0), ("Väärtus 1", msSlotV ms 0),
     ("Parameeter 2", msSlotP ms 1), ("Ühik 2", msSlotY ms 1), ("Väärtus 2", msSlotV ms 1),
     ("Parameeter 3", msSlotP ms 2), ("Ühik 3", msSlotY ms 2), ("Väärtus 3", msSlotV ms 2),
     ("Parameeter 4", msSlotP ms 3), ("Ühik 4", msSlotY ms 3), ("Väärtus 4", msSlotV ms 3),
     ("Materjal 1", if vTruthy (dget m "material") then dget m "material" else Value.vNone),
     ("Materjali 1 kommentaar", Value.vNone), ("Materjal 2", Value.vNone),
     ("Materjali 2 kommentaar", Value.vNone), ("Materjal 3", Value.vNone),
     ("Materjali 3 kommentaar", Value.vNone), ("Värvus", dget m "color"),
     ("Tehnika 1", if vTruthy (dget m "technique") then dget m "technique" else Value.vNone),
     ("Tehnika 1 kommentaar", Value.vNone), ("Tehnika 2", Value.vNone),
     ("Tehnika 2 kommentaar", Value.vNone), ("Tehnika 3", Value.vNone),
     ("Tehnika 3 kommentaar", Value.vNone),
     ("Olemus 1", Value.vNone), ("Olemus 2", Value.vNone),
     ("Viite tyyp", Value.vNone), ("Viite väärtus", Value.vNone),
     ("Leiukontekst", Value.vNone), ("Leiu liik", Value.vNone),
     ("Pealkirja keel", Value.vNone), ("Ainese keel", Value.vNone),
     ("Seisund", Value.vNone), ("Kahjustused", Value.vNone),
     ("Sündmuse liik 1", Value.vNone), ("Toimumiskoha tapsustus kohanimi 1", Value.vNone),
     ("Toimumiskoha tapsustus selgitus 1", Value.vNone), ("Dateering algus 1", Value.vNone),
     ("On eKr 1", Value.vStr ""), ("Dateeringu lopp 1", Value.vNone),
     ("Riik 1", Value.vNone), ("Eesti admin yksus 1", Value.vNone),
     ("Osaleja 1", Value.vNone), ("Osaleja roll 1", Value.vNone), ("Kihelkond 1", Value.vNone),
     ("Sündmuse liik 2", Value.vNone), ("Toimumiskoha tapsustus kohanimi 2", Value.vNone),
     ("Toimumiskoha tapsustus selgitus 2", Value.vNone), ("Dateering algus 2", Value.vNone),
     ("On eKr 2", Value.vStr ""), ("Dateeringu lopp 2", Value.vNone),
     ("Riik 2", Value.vNone), ("Eesti admin yksus 2", Value.vNone),
     ("Osaleja 2", Value.vNone), ("Osaleja roll 2", Value.vNone), ("Kihelkond 2", Value.vNone),
     ("Avalik", Value.vStr ""), ("Avalikusta praegused andmed", Value.vStr ""),
     ("Teksti tyyp 1", Value.vNone), ("Tekst 1", dget m "description"),
     ("Teksti tyyp 2", Value.vNone), ("Tekst 2", Value.vNone),
     ("Nimetuse tyyp", Value.vNone), ("Alt nimetus", Value.vNone),
     ("Numbri tyyp", Value.vNone), ("Alt number", Value.vNone)]

example : MUIS_COLUMN_NAMES.length = 88 := by decide

example : (orchestrator_to_muis_row []).isSome = true := by decide

example : orchestrator_to_muis_row [("measurements", Value.vNone)] = none := by decide

/-! ### Output model (`scripts/models.py`, `MuisMuseaal`) -/

/-- Python string truthiness of an optional string field. -/
def truthyS : Option String → Bool
  | none => false
  | some s => !s.isEmpty

/-- Python float truthiness of an optional numeric field. -/
def truthyN : Option PyNum → Bool
  | none => false
  | some x => x.truthy

/-- The field set of `MuisMuseaal`, with the source's defaults. Field
`vaartus_i` is `Optional[float]`; the `Literal["y", ""]` fields are
optional strings whose constraint is checked below. -/
structure Muis where
  museaali_id : Option String := none
  importimise_staatus : Option String := none
  kommentaar : Option String := none
  acr : String
  trt : String := "_"
  trs : Int
  trj : Option Int := none
  trl : Option String := none
  kt : Option String := none
  ks : Option Int := none
  kj : Option Int := none
  kl : Option String := none
  nimetus : String
  pysiasukoht : Option String := none
  tulmelegend : Option String := none
  originaal : Option String := some ""
  vastuvotu_nr : Option String := none
  esmane_yldinfo : Option String := none
  kogusse_registreerimise_aeg : Option String := none
  yleandja : Option String := none
  muuseumile_omandamise_viis : Option String := none
  parameeter_1 : Option String := none
  yhik_1 : Option String := none
  vaartus_1 : Option PyNum := none
  parameeter_2 : Option String := none
  yhik_2 : Option String := none
  vaartus_2 : Option PyNum := none
  parameeter_3 : Option String := none
  yhik_3 : Option String := none
  vaartus_3 : Option PyNum := none
  parameeter_4 : Option String := none
  yhik_4 : Option String := none
  vaartus_4 : Option PyNum := none
  materjal_1 : Option String := none
  materjali_1_kommentaar : Option String := none
  materjal_2 : Option String := none
  materjali_2_kommentaar : Option String := none
  materjal_3 : Option String := none
  materjali_3_kommentaar : Option String := none
  varvus : Option String := none
  tehnika_1 : Option String := none
  tehnika_1_kommentaar : Option String := none
  tehnika_2 : Option String := none
  tehnika_2_kommentaar : Option String := none
  tehnika_3 : Option String := none
  tehnika_3_kommentaar : Option String := none
  olemus_1 : Option String := none
  olemus_2 : Option String := none
  viite_tyyp : Option String := none
  viite_vaartus : Option String := none
  leiukontekst : Option String := none
  leiu_liik : Option String := none
  pealkirja_keel : Option String := none
  ainese_keel : Option String := none
  seisund : Option String := none
  kahjustused : Option String := none
  syndmuse_liik_1 : Option String := none
  toimumiskoha_tapsustus_kohanimi_1 : Option String := none
  toimumiskoha_tapsustus_selgitus_1 : Option String := none
  dateering_algus_1 : Option String := none
  on_ekr_1 : Option String := some ""
  dateeringu_lopp_1 : Option String := none
  riik_1 : Option String := none
  eesti_admin_yksus_1 : Option String := none
  osaleja_1 : Option String := none
  osaleja_roll_1 : Option String := none
  kihelkond_1 : Option String := none
  syndmuse_liik_2 : Option String := none
  toimumiskoha_tapsustus_kohanimi_2 : Option String := none
  toimumiskoha_tapsustus_selgitus_2 : Option String := none
  dateering_algus_2 : Option String := none
  on_ekr_2 : Option String := some ""
  dateeringu_lopp_2 : Option String := none
  riik_2 : Option String := none
  eesti_admin_yksus_2 : Option String := none
  osaleja_2 : Option String := none
  osaleja_roll_2 : Option String := none
  kihelkond_2 : Option String := none
  avalik : Option String := some ""
  avalikusta_praegused_andmed : Option String := some ""
  teksti_tyyp_1 : Option String := none
  tekst_1 : Option String := none
  teksti_tyyp_2 : Option String := none
  tekst_2 : Option String := none
  nimetuse_tyyp : Option String := none
  alt_nimetus : Option String := none
  numbri_tyyp : Option String := none
  alt_number : Option String := none
deriving DecidableEq, Repr

/-- Field pattern `^[A-Z]{2,4}$` on `acr`. -/
def acrPatternOk (s : String) : Bool :=
  2 ≤ s.data.length && s.data.length ≤ 4
    && s.data.all (fun c => 'A' ≤ c && c ≤ 'Z')

/-- Field constraint `ge=1` on an optional integer. -/
def geOptOk : Option Int → Bool
  | none => true
  | some n => 1 ≤ n

/-- Field constraint `Literal["y", ""]` on an optional string. -/
def literalYOk : Option String → Bool
  | none => true
  | some s => s = "y" || s = ""

/-- Field pattern `^\d{2}\.\d{2}\.\d{4}$`. -/
def ddmmyyyyOk (s : String) : Bool :=
  match s.data with
  | [d1, d2, p1, m1, m2, p2, y1, y2, y3, y4] =>
    ([d1, d2, m1, m2, y1, y2, y3, y4].all Char.isDigit) && p1 = '.' && p2 = '.'
  | _ => false

/-- Pydantic's per-field validation pass: every declared field constraint of
`MuisMuseaal`, in field order (error messages summarize the violated
constraint; no claim inspects field-level messages). -/
def checkFieldConstraints (r : Muis) : Except String Unit :=
  if !acrPatternOk r.acr then .error "acr must match [A-Z]{2,4}"
  else if r.trt != "_" then .error "trt must be the underscore"
  else if r.trs < 1 then .error "trs must be >= 1"
  else if !geOptOk r.trj then .error "trj must be >= 1"
  else if !geOptOk r.ks then .error "ks must be >= 1"
  else if !geOptOk r.kj then .error "kj must be >= 1"
  else if r.nimetus.data.length < 1 then .error "nimetus must be non-empty"
  else if !literalYOk r.originaal then .error "originaal must be y or empty"
  else if !(match r.kogusse_registreerimise_aeg with
            | none => true
            | some s => ddmmyyyyOk s) then
    .error "kogusse_registreerimise_aeg must match pp.kk.aaaa"
  else if !literalYOk r.on_ekr_1 then .error "on_ekr_1 must be y or empty"
  else if !literalYOk r.on_ekr_2 then .error "on_ekr_2 must be y or empty"
  else if !literalYOk r.avalik then .error "avalik must be y or empty"
  else if !literalYOk r.avalikusta_praegused_andmed then
    .error "avalikusta_praegused_andmed must be y or empty"
  else .ok ()

/-- `validate_measurement_dependencies`, loop unrolled. -/
def checkMeasurementDeps (r : Muis) : Except String Unit :=
  if truthyN r.vaartus_1 && !truthyS r.parameeter_1 then
    .error "parameeter_1 required when vaartus_1 is filled"
  else if truthyS r.parameeter_1 && !truthyN r.vaartus_1 then
    .error "vaartus_1 required when parameeter_1 is filled"
  else if truthyN r.vaartus_2 && !truthyS r.parameeter_2 then
    .error "parameeter_2 required when vaartus_2 is filled"
  else if truthyS r.parameeter_2 && !truthyN r.vaartus_2 then
    .error "vaartus_2 required when parameeter_2 is filled"
  else if truthyN r.vaartus_3 && !truthyS r.parameeter_3 then
    .error "parameeter_3 required when vaartus_3 is filled"
  else if truthyS r.parameeter_3 && !truthyN r.vaartus_3 then
    .error "vaartus_3 required when parameeter_3 is filled"
  else if truthyN r.vaartus_4 && !truthyS r.parameeter_4 then
    .error "parameeter_4 required when vaartus_4 is filled"
  else if truthyS r.parameeter_4 && !truthyN r.vaartus_4 then
    .error "vaartus_4 required when parameeter_4 is filled"
  else .ok ()

/-- `validate_material_dependencies`, loop unrolled. -/
def checkMaterialDeps (r : Muis) : Except String Unit :=
  if truthyS r.materjali_1_kommentaar && !truthyS r.materjal_1 then
    .error "materjal_1 required when kommentaar is filled"
  else if truthyS r.materjali_2_kommentaar && !truthyS r.materjal_2 then
    .error "materjal_2 required when kommentaar is filled"
  else if truthyS r.materjali_3_kommentaar && !truthyS r.materjal_3 then
    .error "materjal_3 required when kommentaar is filled"
  else .ok ()

/-- `validate_technique_dependencies`, loop unrolled. -/
def checkTechniqueDeps (r : Muis) : Except String Unit :=
  if truthyS r.tehnika_1_kommentaar && !truthyS r.tehnika_1 then
    .error "tehnika_1 required when kommentaar is filled"
  else if truthyS r.tehnika_2_kommentaar && !truthyS r.tehnika_2 then
    .error "tehnika_2 required when kommentaar is filled"
  else if truthyS r.tehnika_3_kommentaar && !truthyS r.tehnika_3 then
    .error "tehnika_3 required when kommentaar is filled"
  else .ok ()

/-- `validate_event_1_dependencies`: three conditional requirements, then
the country auto-correction (`riik_1` force-set to `"Eesti"` when an
Estonian admin unit or parish is populated and the country differs). -/
def validateEvent1 (r : Muis) : Except String Muis :=
  if truthyS r.osaleja_1 && !truthyS r.osaleja_roll_1 then
    .error "osaleja_roll_1 required when osaleja_1 is filled"
  else if truthyS r.toimumiskoha_tapsustus_kohanimi_1
      && !truthyS r.toimumiskoha_tapsustus_selgitus_1 then
    .error "selgitus_1 required when kohanimi_1 is filled"
  else if truthyS r.dateeringu_lopp_1 && !truthyS r.dateering_algus_1 then
    .error "dateering_algus_1 required when dateering_lopp_1 is filled"
  else
    .ok (if (truthyS r.eesti_admin_yksus_1 || truthyS r.kihelkond_1)
           && r.riik_1 != some "Eesti"
         then { r with riik_1 := some "Eesti" }
         else r)

/-- `validate_event_2_dependencies`: same rules on event block 2. -/
def validateEvent2 (r : Muis) : Except String Muis :=
  if truthyS r.osaleja_2 && !truthyS r.osaleja_roll_2 then
    .error "osaleja_roll_2 required when osaleja_2 is filled"
  else if truthyS r.toimumiskoha_tapsustus_kohanimi_2
      && !truthyS r.toimumiskoha_tapsustus_selgitus_2 then
    .error "selgitus_2 required when kohanimi_2 is filled"
  else if truthyS r.dateeringu_lopp_2 && !truthyS r.dateering_algus_2 then
    .error "dateering_algus_2 required when dateering_lopp_2 is filled"
  else
    .ok (if (truthyS r.eesti_admin_yksus_2 || truthyS r.kihelkond_2)
           && r.riik_2 != some "Eesti"
         then { r with riik_2 := some "Eesti" }
         else r)

/-- `validate_description_dependencies`: bidirectional pairing. -/
def checkDescriptionDeps (r : Muis) : Except String Unit :=
  if truthyS r.teksti_tyyp_1 && !truthyS r.tekst_1 then
    .error "tekst_1 required when teksti_tyyp_1 is filled"
  else if truthyS r.tekst_1 && !truthyS r.teksti_tyyp_1 then
    .error "teksti_tyyp_1 required when tekst_1 is filled"
  else if truthyS r.teksti_tyyp_2 && !truthyS r.tekst_2 then
    .error "tekst_2 required when teksti_tyyp_2 is filled"
  else if truthyS r.tekst_2 && !truthyS r.teksti_tyyp_2 then
    .error "teksti_tyyp_2 required when tekst_2 is filled"
  else .ok ()

/-- `validate_alternative_name_dependencies`. -/
def checkAltNameDeps (r : Muis) : Except String Unit :=
  if truthyS r.nimetuse_tyyp && !truthyS r.alt_nimetus then
    .error "alt_nimetus required when nimetuse_tyyp is filled"
  else if truthyS r.alt_nimetus && !truthyS r.nimetuse_tyyp then
    .error "nimetuse_tyyp required when alt_nimetus is filled"
  else .ok ()

/-- `validate_alternative_number_dependencies`. -/
def checkAltNumberDeps (r : Muis) : Except String Unit :=
  if truthyS r.numbri_tyyp && !truthyS r.alt_number then
    .error "alt_number required when numbri_tyyp is filled"
  else if truthyS r.alt_number && !truthyS r.numbri_tyyp then
    .error "numbri_tyyp required when alt_number is filled"
  else .ok ()

/-- `validate_condition_damage_dependency`. -/
def checkConditionDamage (r : Muis) : Except String Unit :=
  if (r.seisund == some "halb" || r.seisund == some "väga halb")
      && !truthyS r.kahjustused then
    .error "kahjustused required when seisund is halb or väga halb"
  else .ok ()

/-- `validate_reference_dependency`. -/
def checkReferenceDep (r : Muis) : Except String Unit :=
  if truthyS r.viite_vaartus && !truthyS r.viite_tyyp then
    .error "viite_tyyp required when viite_vaartus is filled"
  else .ok ()

/-- `validate_archaeology_dependency`. -/
def checkArchaeologyDep (r : Muis) : Except String Unit :=
  if truthyS r.leiu_liik && !truthyS r.leiukontekst then
    .error "leiukontekst required when leiu_liik is filled"
  else .ok ()

/-- Construction of a `MuisMuseaal`: pydantic validates every field
constraint, then runs the model validators; any violation aborts with a
`ValidationError` (modelled as `Except.error` carrying the raising
validator's message), and the two event validators may silently rewrite
the country fields. The later pure checks read only fields the event
validators never change, so ordering them after the rewrites is exact. -/
def mkMuisMuseaal (r : Muis) : Except String Muis := do
  let _ ← checkFieldConstraints r
  let _ ← checkMeasurementDeps r
  let _ ← checkMaterialDeps r
  let _ ← checkTechniqueDeps r
  let r1 ← validateEvent1 r
  let r2 ← validateEvent2 r1
  let _ ← checkDescriptionDeps r2
  let _ ← checkAltNameDeps r2
  let _ ← checkAltNumberDeps r2
  let _ ← checkConditionDamage r2
  let _ ← checkReferenceDep r2
  let _ ← checkArchaeologyDep r2
  return r2

example : (mkMuisMuseaal { acr := "VBM", trs := 1, nimetus := "test" }).isOk = true := by decide

example :
    mkMuisMuseaal { acr := "VBM", trs := 1, nimetus := "test", osaleja_1 := some "Tamm, Jaan" }
      = .error "osaleja_roll_1 required when osaleja_1 is filled" := by decide

example : (mkMuisMuseaal { acr := "VBM", trs := 1, nimetus := "test", trj := some 0 }).isOk
    = false := by decide

/-! ## Claims -/

/-- C1: the spec (and the source's own test `test_trj_zero_returns_none`)
require `parse_entu_code` to report a `"000"` sub-series as the absent
marker; the code instead returns the integer 0 — evaluated here at the
spec's own example `"020082/000"`. -/
theorem C1_zero_subseries_parses_to_zero :
    parse_entu_code (some "020082/000")
      = .ok ⟨"VBM", "_", 20082, 0, none, none, none, none, none⟩ ∧
    (convert_row { code := some "020082/000" }).lookup "trj" = some (Value.vNat 0) ∧
    Value.vNat 0 ≠ Value.vNone := by decide

/-- C3 counterexample: `" 020027/117"` does not match the pattern
six digits, slash, three digits (it starts with a space), yet
`parse_entu_code` strips whitespace first and succeeds on it — so the
failure set is not exactly the non-matching inputs. -/
theorem C3_counterexample_whitespace :
    matchesEntuPattern " 020027/117" = false ∧
    parse_entu_code (some " 020027/117")
      = .ok ⟨"VBM", "_", 20027, 117, none, none, none, none, none⟩ := by decide

/-- C3 (amended): `parse_entu_code` fails with a `ValueError` exactly on
inputs that are `None`, empty, or whose whitespace-stripped form does not
match six digits, slash, three digits; every input whose stripped form
matches succeeds with the fixed archive code, the fixed separator, the two
groups as leading-zero-stripped integers, and the five remaining hierarchy
fields absent; the format error carries the (stripped) input string. -/
theorem C3_parse_entu_code_total_spec (c : Option String) :
    ((parse_entu_code c).isOk = true ↔
      ∃ s, c = some s ∧ s ≠ "" ∧ matchesEntuPattern (pyStrip s) = true) ∧
    (∀ s, c = some s → s ≠ "" → matchesEntuPattern (pyStrip s) = true →
      parse_entu_code c = .ok ⟨"VBM", "_",
        digitsToNat ((pyStrip s).data.take 6),
        digitsToNat ((pyStrip s).data.drop 7), none, none, none, none, none⟩) ∧
    (∀ s, c = some s → s ≠ "" → matchesEntuPattern (pyStrip s) = false →
      parse_entu_code c = .error ("Invalid ENTU code format: " ++ pyStrip s
        ++ ". Expected format: NNNNNN/NNN (e.g., 020027/117)")) ∧
    (c = some "" → parse_entu_code c = .error "Code must be a non-empty string, got: ") ∧
    (c = none → parse_entu_code c = .error "Code must be a non-empty string, got: None") := by
  cases c with
  | none => simp [parse_entu_code, Except.isOk, Except.toBool]
  | some s =>
    by_cases hs : s = ""
    · subst hs
      simp [parse_entu_code, Except.isOk, Except.toBool]
    · by_cases hm : matchesEntuPattern (pyStrip s) = true
      · refine ⟨?_, ?_, ?_, ?_, ?_⟩
        · simp [parse_entu_code, hs, hm, Except.isOk, Except.toBool]
        · intro t ht _ _
          cases ht
          simp [parse_entu_code, hs, hm]
        · intro t ht _ hmf
          cases ht
          rw [hm] at hmf
          cases hmf
        · intro h
          cases h
          exact absurd rfl hs
        · intro h
          cases h
      · have hmf : matchesEntuPattern (pyStrip s) = false := by
          cases h : matchesEntuPattern (pyStrip s)
          · rfl
          · exact absurd h hm
        refine ⟨?_, ?_, ?_, ?_, ?_⟩
        · simp only [parse_entu_code, hs, if_neg hs, hmf]
          constructor
          · intro h
            simp [Except.isOk, Except.toBool] at h
          · rintro ⟨t, ht, -, hmt⟩
            cases ht
            rw [hmt] at hmf
            cases hmf
        · intro t ht _ hmt
          cases ht
          rw [hmt] at hmf
          cases hmf
        · intro t ht _ _
          cases ht
          simp [parse_entu_code, hs, hmf]
        · intro h
          cases h
          exact absurd rfl hs
        · intro h
          cases h

/-- C3 witness: the dichotomy applied at the spec's examples
`"006562/001"` (success, 6562 / 1) and `"ABC/XYZ"` (format error). -/
theorem C3_witness :
    parse_entu_code (some "006562/001")
      = .ok ⟨"VBM", "_", 6562, 1, none, none, none, none, none⟩ ∧
    (parse_entu_code (some "ABC/XYZ")).isOk = false := by
  constructor
  · have h := (C3_parse_entu_code_total_spec (some "006562/001")).2.1 "006562/001"
      rfl (by decide) (by decide)
    exact h.trans (by decide)
  · have h := (C3_parse_entu_code_total_spec (some "ABC/XYZ")).2.2.1 "ABC/XYZ"
      rfl (by decide) (by decide)
    rw [h]
    rfl

/-- C6: `parse_dimensions` is total on optional-string input, returns at
most 4 measurements for every input, returns `[]` on `None`, the empty
string and unparseable text, and silently drops measurements past the 4th
(shown on a 5-measurement input). -/
theorem C6_parse_dimensions_bounded_total (o : Option String) :
    (parse_dimensions o).length ≤ 4 ∧
    parse_dimensions none = [] ∧
    parse_dimensions (some "") = [] ∧
    parse_dimensions (some "unparseable text") = [] ∧
    parse_dimensions (some "1x2x3;4x5") =
      [⟨"kõrgus", "mm", ⟨1, 0⟩⟩, ⟨"laius", "mm", ⟨2, 0⟩⟩,
       ⟨"sügavus", "mm", ⟨3, 0⟩⟩, ⟨"kõrgus", "mm", ⟨4, 0⟩⟩] := by
  refine ⟨?_, by decide, by decide, by decide, by decide⟩
  cases o with
  | none => simp [parse_dimensions]
  | some s =>
    by_cases h1 : s = ""
    · simp [parse_dimensions, h1]
    · by_cases h2 : pyStrip s = ""
      · simp [parse_dimensions, h1, h2]
      · simp only [parse_dimensions, h1, if_neg h1, h2, if_neg h2]
        exact List.length_take_le 4 _

/-- The `gt=0` constraint the data model (`MuisMeasurement.vaartus` in
`scripts/models.py`) places on a measurement value. -/
def muisMeasurementValueOk (m : Measurement) : Prop := 0 < m.vaartus.toRat

/-- C7: the claim (and the model constraint `vaartus gt=0`) require every
parsed measurement value to be strictly positive, but the parser's regexes
accept a zero literal: `"0x5"` yields a height measurement of value 0. -/
theorem C7_dimension_parser_emits_zero_value :
    parse_dimensions (some "0x5")
      = [⟨"kõrgus", "mm", ⟨0, 0⟩⟩, ⟨"laius", "mm", ⟨5, 0⟩⟩] ∧
    ∃ m ∈ parse_dimensions (some "0x5"), ¬ muisMeasurementValueOk m := by
  refine ⟨by decide, ⟨"kõrgus", "mm", ⟨0, 0⟩⟩, by decide, ?_⟩
  simp [muisMeasurementValueOk, PyNum.toRat]

/-- C2 counterexample input: a source record with every claimed
pass-through field populated. -/
def rowC2 : EntuRow :=
  { code := some "020027/117", name := some "Ese", description := some "kirjeldus",
    asukoht := some "hoidla", vastuv6tuakt := some "AKT-1", year := some "1950",
    legend := some "sisekirjeldus", public_legend := some "avalik kirjeldus" }

/-- C2 counterexample: the source record's location field holds
`"hoidla"`, but the orchestrator's output map has no location entry and no
entry holding that value at all — the location (and likewise the
acquisition-act, year and caption fields) is not copied. -/
theorem C2_counterexample_location_dropped :
    rowC2.asukoht = some "hoidla" ∧
    (convert_row rowC2).lookup "asukoht" = none ∧
    (∀ p ∈ convert_row rowC2, p.2 ≠ Value.vStr "hoidla") := by decide

/-- C2 (amended): `convert_row` copies only the title (`name`) and the
free-text description verbatim, defaulting to `""` when absent, and stores
the raw donator/autor strings under `donator_direct`/`autor_direct`; the
location, acquisition-act reference, original-code string, year/period
string and the two caption fields are not copied into the output map (and
the date entry is the parsed date, not a pass-through). -/
theorem C2_convert_row_passthrough (row : EntuRow) :
    (convert_row row).lookup "name" = some (Value.vStr (row.name.getD "")) ∧
    (convert_row row).lookup "description" = some (Value.vStr (row.description.getD "")) ∧
    (convert_row row).lookup "donator_direct" = some (Value.vStr (row.donator.getD "")) ∧
    (convert_row row).lookup "autor_direct" = some (Value.vStr (row.autor.getD "")) ∧
    (convert_row row).lookup "asukoht" = none ∧
    (convert_row row).lookup "vastuv6tuakt" = none ∧
    (convert_row row).lookup "year" = none ∧
    (convert_row row).lookup "legend" = none ∧
    (convert_row row).lookup "public_legend" = none :=
  ⟨rfl, rfl, rfl, rfl, rfl, rfl, rfl, rfl, rfl⟩

/-- The all-`None` fallback fires whenever the code parser does not
succeed on the (defaulted) code value — missing code, empty code, or a
caught format error. -/
theorem hierOf_allNone (code : String)
    (h : (parse_entu_code (some code)).isOk = false) :
    hierOf code = hierAllNone := by
  unfold hierOf
  by_cases hc : code = ""
  · simp [hc]
  · rw [if_neg hc]
    cases hp : parse_entu_code (some code) with
    | ok f => rw [hp] at h; simp [Except.isOk, Except.toBool] at h
    | error e => rfl

/-- C8: the orchestrator is total (it returns the complete 20-key row for
every record), and whenever the code is absent, empty, or rejected by the
code parser, all nine hierarchy entries are the `None` marker instead of
the failure propagating. -/
theorem C8_convert_row_total_fallback (row : EntuRow) :
    (convert_row row).map Prod.fst = intermediateKeys ∧
    ((parse_entu_code (some (row.code.getD ""))).isOk = false →
      ((convert_row row).lookup "acr" = some Value.vNone ∧
       (convert_row row).lookup "trt" = some Value.vNone ∧
       (convert_row row).lookup "trs" = some Value.vNone ∧
       (convert_row row).lookup "trj" = some Value.vNone ∧
       (convert_row row).lookup "trl" = some Value.vNone ∧
       (convert_row row).lookup "kt" = some Value.vNone ∧
       (convert_row row).lookup "ks" = some Value.vNone ∧
       (convert_row row).lookup "kj" = some Value.vNone ∧
       (convert_row row).lookup "kl" = some Value.vNone)) := by
  constructor
  · rfl
  · intro h
    have hh : hierOf (row.code.getD "") = hierAllNone := hierOf_allNone _ h
    refine ⟨?_, ?_, ?_, ?_, ?_, ?_, ?_, ?_, ?_⟩ <;>
      simp [convert_row, hh, hierAllNone, List.lookup]

/-- C8 witness input: a record whose code fails the format check. -/
def rowInvalidCode : EntuRow := { code := some "INVALID" }

/-- C8 witness: the fallback theorem applied at `code="INVALID"`. -/
theorem C8_witness :
    (convert_row rowInvalidCode).map Prod.fst = intermediateKeys ∧
    (convert_row rowInvalidCode).lookup "trs" = some Value.vNone ∧
    (convert_row rowInvalidCode).lookup "trj" = some Value.vNone := by
  have h := C8_convert_row_total_fallback rowInvalidCode
  have h2 := h.2 (by decide)
  exact ⟨h.1, h2.2.2.1, h2.2.2.2.1⟩

/-- The output columns this phase never populates (constant `None` in
`orchestrator_to_muis_row`; the `""`-defaulted flag columns are excluded,
as the spec excludes "forced defaults"). -/
def nonePopulatedColumns : List String :=
  ["museaali_ID", "Importimise staatus", "Kommentaar", "Püsiasukoht",
   "Vastuvõtu nr", "Koguse registreerimise aeg", "Muuseumile omandamise viis",
   "Materjali 1 kommentaar", "Materjal 2", "Materjali 2 kommentaar",
   "Materjal 3", "Materjali 3 kommentaar",
   "Tehnika 1 kommentaar", "Tehnika 2", "Tehnika 2 kommentaar",
   "Tehnika 3", "Tehnika 3 kommentaar",
   "Olemus 1", "Olemus 2", "Viite tyyp", "Viite väärtus",
   "Leiukontekst", "Leiu liik", "Pealkirja keel", "Ainese keel",
   "Seisund", "Kahjustused",
   "Sündmuse liik 1", "Toimumiskoha tapsustus kohanimi 1",
   "Toimumiskoha tapsustus selgitus 1", "Dateering algus 1",
   "Dateeringu lopp 1", "Riik 1", "Eesti admin yksus 1", "Osaleja 1",
   "Osaleja roll 1", "Kihelkond 1",
   "Sündmuse liik 2", "Toimumiskoha tapsustus kohanimi 2",
   "Toimumiskoha tapsustus selgitus 2", "Dateering algus 2",
   "Dateeringu lopp 2", "Riik 2", "Eesti admin yksus 2", "Osaleja 2",
   "Osaleja roll 2", "Kihelkond 2",
   "Teksti tyyp 1", "Teksti tyyp 2", "Tekst 2",
   "Nimetuse tyyp", "Alt nimetus", "Numbri tyyp", "Alt number"]

/-- C9 counterexample: a dict (per the spec's own `IntermediateFieldMap`,
values may be `None`) whose `measurements` entry is `None` makes the
mapper raise (`len(None)` is a `TypeError`) — it is not total on every
input dict. -/
theorem C9_counterexample_measurements_none :
    orchestrator_to_muis_row [("measurements", Value.vNone)] = none := by decide

/-- C9 (amended): on every input dict whose `measurements` entry — when
present — is a measurement list (missing keys included), the column mapper
returns, without raising, a mapping whose key sequence is exactly
`MUIS_COLUMN_NAMES`, with `None` at every column this phase does not
populate, the measurement list unpacked positionally into the four
measurement-triple slots with `None` triples past its length, and the
named fields sourced from their intermediate keys. -/
theorem C9_orchestrator_total_on_wellformed (m : List (String × Value)) (ms : List Measurement)
    (h : measurementsOf (m.lookup "measurements") = some ms) :
    ∃ out, orchestrator_to_muis_row m = some out ∧
      out.map Prod.fst = MUIS_COLUMN_NAMES ∧
      (∀ c ∈ nonePopulatedColumns, out.lookup c = some Value.vNone) ∧
      out.lookup "Parameeter 1" = some (msSlotP ms 0) ∧
      out.lookup "Ühik 1" = some (msSlotY ms 0) ∧
      out.lookup "Väärtus 1" = some (msSlotV ms 0) ∧
      out.lookup "Parameeter 2" = some (msSlotP ms 1) ∧
      out.lookup "Ühik 2" = some (msSlotY ms 1) ∧
      out.lookup "Väärtus 2" = some (msSlotV ms 1) ∧
      out.lookup "Parameeter 3" = some (msSlotP ms 2) ∧
      out.lookup "Ühik 3" = some (msSlotY ms 2) ∧
      out.lookup "Väärtus 3" = some (msSlotV ms 2) ∧
      out.lookup "Parameeter 4" = some (msSlotP ms 3) ∧
      out.lookup "Ühik 4" = some (msSlotY ms 3) ∧
      out.lookup "Väärtus 4" = some (msSlotV ms 3) ∧
      out.lookup "Acr" = some (dget m "acr") ∧
      out.lookup "Trs" = some (dget m "trs") ∧
      out.lookup "Trj" = some (dget m "trj") ∧
      out.lookup "Nimetus" = some (dget m "name") ∧
      out.lookup "Tulmelegend" = some (dget m "description") ∧
      out.lookup "Üleandja" = some (dget m "donator") ∧
      out.lookup "Värvus" = some (dget m "color") ∧
      out.lookup "Tekst 1" = some (dget m "description") := by
  unfold orchestrator_to_muis_row
  rw [h]
  refine ⟨_, rfl, rfl, ?_, rfl, rfl, rfl, rfl, rfl, rfl, rfl, rfl, rfl, rfl, rfl, rfl,
    rfl, rfl, rfl, rfl, rfl, rfl, rfl, rfl⟩
  intro c hc
  fin_cases hc <;> rfl

/-- C9 witness: the amended theorem applied at the empty dict. -/
theorem C9_witness :
    ∃ out, orchestrator_to_muis_row [] = some out ∧
      out.map Prod.fst = MUIS_COLUMN_NAMES := by
  obtain ⟨out, h1, h2, -⟩ := C9_orchestrator_total_on_wellformed [] [] (by decide)
  exact ⟨out, h1, h2⟩

/-- Destructuring a successful `Except` bind. -/
theorem exceptBind_ok {α β : Type} {e : Except String α} {f : α → Except String β} {b : β}
    (h : (e >>= f) = .ok b) : ∃ a, e = .ok a ∧ f a = .ok b := by
  cases e with
  | error m => simp [Bind.bind, Except.bind] at h
  | ok a => exact ⟨a, rfl, by simpa [Bind.bind, Except.bind] using h⟩

/-- A successful event-1 validation returns the record unchanged or with
only the country of block 1 rewritten to `"Eesti"`. -/
theorem validateEvent1_cases (r r1 : Muis) (h : validateEvent1 r = .ok r1) :
    r1 = r ∨ r1 = { r with riik_1 := some "Eesti" } := by
  unfold validateEvent1 at h
  split at h
  · exact Except.noConfusion h
  split at h
  · exact Except.noConfusion h
  split at h
  · exact Except.noConfusion h
  injection h with h'
  rw [← h']
  split
  · exact Or.inr rfl
  · exact Or.inl rfl

/-- A successful event-2 validation returns the record unchanged or with
only the country of block 2 rewritten to `"Eesti"`. -/
theorem validateEvent2_cases (r r2 : Muis) (h : validateEvent2 r = .ok r2) :
    r2 = r ∨ r2 = { r with riik_2 := some "Eesti" } := by
  unfold validateEvent2 at h
  split at h
  · exact Except.noConfusion h
  split at h
  · exact Except.noConfusion h
  split at h
  · exact Except.noConfusion h
  injection h with h'
  rw [← h']
  split
  · exact Or.inr rfl
  · exact Or.inl rfl

/-- After a successful event-1 validation, a populated Estonian admin unit
or parish in block 1 forces the block-1 country to `"Eesti"`. -/
theorem validateEvent1_riik (r r1 : Muis) (h : validateEvent1 r = .ok r1)
    (ha : (truthyS r1.eesti_admin_yksus_1 || truthyS r1.kihelkond_1) = true) :
    r1.riik_1 = some "Eesti" := by
  have ha' : (truthyS r.eesti_admin_yksus_1 || truthyS r.kihelkond_1) = true := by
    rcases validateEvent1_cases r r1 h with h1 | h1 <;> rw [h1] at ha <;> exact ha
  unfold validateEvent1 at h
  split at h
  · exact Except.noConfusion h
  split at h
  · exact Except.noConfusion h
  split at h
  · exact Except.noConfusion h
  injection h with h'
  rw [← h']
  split
  · rfl
  · rename_i hcond
    simp only [ha', Bool.true_and, bne_iff_ne, ne_eq, not_not] at hcond
    exact hcond

/-- After a successful event-2 validation, a populated Estonian admin unit
or parish in block 2 forces the block-2 country to `"Eesti"`. -/
theorem validateEvent2_riik (r r2 : Muis) (h : validateEvent2 r = .ok r2)
    (ha : (truthyS r2.eesti_admin_yksus_2 || truthyS r2.kihelkond_2) = true) :
    r2.riik_2 = some "Eesti" := by
  have ha' : (truthyS r.eesti_admin_yksus_2 || truthyS r.kihelkond_2) = true := by
    rcases validateEvent2_cases r r2 h with h1 | h1 <;> rw [h1] at ha <;> exact ha
  unfold validateEvent2 at h
  split at h
  · exact Except.noConfusion h
  split at h
  · exact Except.noConfusion h
  split at h
  · exact Except.noConfusion h
  injection h with h'
  rw [← h']
  split
  · rfl
  · rename_i hcond
    simp only [ha', Bool.true_and, bne_iff_ne, ne_eq, not_not] at hcond
    exact hcond

/-- A successful construction passes the field-constraint pass and threads
the record through both event validators; the final record is event 2's
output. -/
theorem mkMuisMuseaal_ok_parts (r r' : Muis) (h : mkMuisMuseaal r = .ok r') :
    checkFieldConstraints r = .ok () ∧
    ∃ r1, validateEvent1 r = .ok r1 ∧ validateEvent2 r1 = .ok r' := by
  unfold mkMuisMuseaal at h
  obtain ⟨u1, hfc, h⟩ := exceptBind_ok h
  obtain ⟨u2, _, h⟩ := exceptBind_ok h
  obtain ⟨u3, _, h⟩ := exceptBind_ok h
  obtain ⟨u4, _, h⟩ := exceptBind_ok h
  obtain ⟨r1, he1, h⟩ := exceptBind_ok h
  obtain ⟨r2, he2, h⟩ := exceptBind_ok h
  obtain ⟨u5, _, h⟩ := exceptBind_ok h
  obtain ⟨u6, _, h⟩ := exceptBind_ok h
  obtain ⟨u7, _, h⟩ := exceptBind_ok h
  obtain ⟨u8, _, h⟩ := exceptBind_ok h
  obtain ⟨u9, _, h⟩ := exceptBind_ok h
  obtain ⟨u10, _, h⟩ := exceptBind_ok h
  have h2 : r2 = r' := by
    simpa [Pure.pure, Except.pure] using h
  cases u1
  exact ⟨hfc, r1, he1, h2 ▸ he2⟩

/-- C4 base record: minimal valid required fields, everything else at the
model's defaults. -/
def rec4base : Muis := { acr := "VBM", trs := 1, nimetus := "test" }

/-- C4: constructing an output record with an event participant set and
its role unset fails with the validation error naming that dependency,
while setting both succeeds — independently for event block 1 and event
block 2. -/
def rec4partNoRole1 : Muis := { rec4base with osaleja_1 := some "Tamm, Jaan" }

def rec4partRole1 : Muis := { rec4base with
  osaleja_1 := some "Tamm, Jaan", osaleja_roll_1 := some "annetaja" }

def rec4partNoRole2 : Muis := { rec4base with osaleja_2 := some "Tamm, Jaan" }

def rec4partRole2 : Muis := { rec4base with
  osaleja_2 := some "Tamm, Jaan", osaleja_roll_2 := some "annetaja" }

theorem C4_participant_role_dependency :
    mkMuisMuseaal rec4partNoRole1
      = .error "osaleja_roll_1 required when osaleja_1 is filled" ∧
    (mkMuisMuseaal rec4partRole1).isOk = true ∧
    mkMuisMuseaal rec4partNoRole2
      = .error "osaleja_roll_2 required when osaleja_2 is filled" ∧
    (mkMuisMuseaal rec4partRole2).isOk = true := by decide

/-- C5: for every record whose construction succeeds, a populated Estonian
admin-unit or parish field of an event block forces that block's country
to `"Eesti"` in the constructed record (auto-correction, not rejection),
for blocks 1 and 2 independently. -/
theorem C5_country_forced_on_success (r r' : Muis) (h : mkMuisMuseaal r = .ok r') :
    ((truthyS r'.eesti_admin_yksus_1 || truthyS r'.kihelkond_1) = true →
      r'.riik_1 = some "Eesti") ∧
    ((truthyS r'.eesti_admin_yksus_2 || truthyS r'.kihelkond_2) = true →
      r'.riik_2 = some "Eesti") := by
  obtain ⟨-, r1, he1, he2⟩ := mkMuisMuseaal_ok_parts r r' h
  constructor
  · intro ha
    rcases validateEvent2_cases r1 r' he2 with h2 | h2
    · rw [h2] at ha ⊢
      exact validateEvent1_riik r r1 he1 ha
    · rw [h2] at ha ⊢
      exact validateEvent1_riik r r1 he1 ha
  · intro ha
    exact validateEvent2_riik r1 r' he2 ha

/-- C5 witness input: an Estonian admin unit populated with no country. -/
def rec5 : Muis :=
  { acr := "VBM", trs := 1, nimetus := "test", eesti_admin_yksus_1 := some "Tartu linn" }

/-- C5 witness: constructing `rec5` succeeds and the theorem yields the
forced country on the constructed record. -/
theorem C5_witness :
    mkMuisMuseaal rec5 = .ok { rec5 with riik_1 := some "Eesti" } ∧
    ({ rec5 with riik_1 := some "Eesti" } : Muis).riik_1 = some "Eesti" := by
  refine ⟨by decide, ?_⟩
  exact (C5_country_forced_on_success rec5 _ (by decide)).1 (by decide)

/-- The field-constraint pass enforces the numeric lower bounds on the
hierarchy fields. -/
theorem checkFieldConstraints_ok (r : Muis) (h : checkFieldConstraints r = .ok ()) :
    1 ≤ r.trs ∧ geOptOk r.trj = true ∧ geOptOk r.ks = true ∧ geOptOk r.kj = true := by
  unfold checkFieldConstraints at h
  by_cases h1 : (!acrPatternOk r.acr) = true
  · rw [if_pos h1] at h
    exact Except.noConfusion h
  rw [if_neg h1] at h
  by_cases h2 : (r.trt != "_") = true
  · rw [if_pos h2] at h
    exact Except.noConfusion h
  rw [if_neg h2] at h
  by_cases h3 : r.trs < 1
  · rw [if_pos h3] at h
    exact Except.noConfusion h
  rw [if_neg h3] at h
  by_cases h4 : (!geOptOk r.trj) = true
  · rw [if_pos h4] at h
    exact Except.noConfusion h
  rw [if_neg h4] at h
  by_cases h5 : (!geOptOk r.ks) = true
  · rw [if_pos h5] at h
    exact Except.noConfusion h
  rw [if_neg h5] at h
  by_cases h6 : (!geOptOk r.kj) = true
  · rw [if_pos h6] at h
    exact Except.noConfusion h
  rw [if_neg h6] at h
  by_cases h7 : r.nimetus.data.length < 1
  · rw [if_pos h7] at h
    exact Except.noConfusion h
  rw [if_neg h7] at h
  by_cases h8 : (!literalYOk r.originaal) = true
  · rw [if_pos h8] at h
    exact Except.noConfusion h
  rw [if_neg h8] at h
  by_cases h9 : (!(match r.kogusse_registreerimise_aeg with
      | none => true
      | some s => ddmmyyyyOk s)) = true
  · rw [if_pos h9] at h
    exact Except.noConfusion h
  rw [if_neg h9] at h
  by_cases h10 : (!literalYOk r.on_ekr_1) = true
  · rw [if_pos h10] at h
    exact Except.noConfusion h
  rw [if_neg h10] at h
  by_cases h11 : (!literalYOk r.on_ekr_2) = true
  · rw [if_pos h11] at h
    exact Except.noConfusion h
  rw [if_neg h11] at h
  by_cases h12 : (!literalYOk r.avalik) = true
  · rw [if_pos h12] at h
    exact Except.noConfusion h
  rw [if_neg h12] at h
  by_cases h13 : (!literalYOk r.avalikusta_praegused_andmed) = true
  · rw [if_pos h13] at h
    exact Except.noConfusion h
  rw [if_neg h13] at h
  refine ⟨Int.not_lt.mp h3, ?_, ?_, ?_⟩
  · simpa using h4
  · simpa using h5
  · simpa using h6

/-- `ge=1` on an optional integer, read back. -/
theorem geOptOk_some {o : Option Int} (h : geOptOk o = true) :
    ∀ n, o = some n → 1 ≤ n := by
  intro n hn
  subst hn
  simpa [geOptOk] using h

/-- C10: every successfully constructed output record has main series
`trs ≥ 1` and each of `trj`, `ks`, `kj`, when present, at least 1; and a
record with an explicit zero sub-series (`trj = 0`, as the code parser
produces for a `/000` code) fails validation. -/
theorem C10_hierarchy_ge_one :
    (∀ r r', mkMuisMuseaal r = .ok r' →
      1 ≤ r'.trs ∧ (∀ n, r'.trj = some n → 1 ≤ n) ∧
      (∀ n, r'.ks = some n → 1 ≤ n) ∧ (∀ n, r'.kj = some n → 1 ≤ n)) ∧
    (∀ r, r.trj = some 0 → (mkMuisMuseaal r).isOk = false) := by
  constructor
  · intro r r' h
    obtain ⟨hfc, r1, he1, he2⟩ := mkMuisMuseaal_ok_parts r r' h
    have hc := checkFieldConstraints_ok r hfc
    have htrs : r'.trs = r.trs := by
      rcases validateEvent2_cases r1 r' he2 with h2 | h2 <;>
        rcases validateEvent1_cases r r1 he1 with h1 | h1 <;> rw [h2, h1]
    have htrj : r'.trj = r.trj := by
      rcases validateEvent2_cases r1 r' he2 with h2 | h2 <;>
        rcases validateEvent1_cases r r1 he1 with h1 | h1 <;> rw [h2, h1]
    have hks : r'.ks = r.ks := by
      rcases validateEvent2_cases r1 r' he2 with h2 | h2 <;>
        rcases validateEvent1_cases r r1 he1 with h1 | h1 <;> rw [h2, h1]
    have hkj : r'.kj = r.kj := by
      rcases validateEvent2_cases r1 r' he2 with h2 | h2 <;>
        rcases validateEvent1_cases r r1 he1 with h1 | h1 <;> rw [h2, h1]
    refine ⟨?_, ?_, ?_, ?_⟩
    · rw [htrs]; exact hc.1
    · rw [htrj]; exact geOptOk_some hc.2.1
    · rw [hks]; exact geOptOk_some hc.2.2.1
    · rw [hkj]; exact geOptOk_some hc.2.2.2
  · intro r hr0
    cases hfc : checkFieldConstraints r with
    | error e =>
      simp [mkMuisMuseaal, hfc, Bind.bind, Except.bind, Except.isOk, Except.toBool]
    | ok u =>
      cases u
      have := (checkFieldConstraints_ok r hfc).2.1
      rw [hr0] at this
      exact absurd this (by decide)

/-- C10 witness inputs: a valid record with `trj = 2`, and one with the
explicit zero sub-series. -/
def rec10 : Muis := { acr := "VBM", trs := 3, nimetus := "test", trj := some 2 }

def rec10bad : Muis := { acr := "VBM", trs := 1, nimetus := "test", trj := some 0 }

/-- C10 witness: the invariant applied at `rec10` (whose construction
succeeds unchanged) and the rejection applied at `rec10bad`. -/
theorem C10_witness :
    (1 ≤ rec10.trs ∧ (∀ n, rec10.trj = some n → 1 ≤ n)) ∧
    (mkMuisMuseaal rec10bad).isOk = false := by
  constructor
  · have h := C10_hierarchy_ge_one.1 rec10 rec10 (by decide)
    exact ⟨h.1, h.2.1⟩
  · exact C10_hierarchy_ge_one.2 rec10bad rfl
